import Mathlib

/-!
Verification of the auto-cert admission-webhook library against its design
specification.  The development shallowly embeds the CA-bundle syncer, the
certificate provider, the webhook-reference computation and the configuration
resolution chain, and proves the specification's testable properties about
them.  Kubernetes objects are modelled as finite association structures;
byte slices are modelled as strings (all observations in the repository's
tests compare byte slices by string value).
-/

set_option autoImplicit false

namespace AutoCert

/-- Generic first-match lookup in an association list keyed by strings.
Mirrors Go map indexing `m[k]` (with uniqueness of keys in a real map,
first-match agrees with map semantics). -/
def lookupKey {α : Type} : List (String × α) → String → Option α
  | [], _ => none
  | (k', v) :: rest, k => if k' = k then some v else lookupKey rest k

/-- Generic first-match lookup keyed by (namespace, name), mirroring a
namespaced Kubernetes Get. -/
def getNamespaced {α : Type} : List (String × String × α) → String → String → Option α
  | [], _, _ => none
  | (ns', name', v) :: rest, ns, name =>
    if ns' = ns ∧ name' = name then some v else getNamespaced rest ns name

/- ## CA-bundle syncer data model -/

/-- One sub-webhook entry inside a webhook-configuration resource: its name and
its client-TLS-trust field (`ClientConfig.CABundle`). -/
structure Webhook where
  name : String
  caBundle : String
deriving DecidableEq, Repr

/-- The kind tag of a webhook reference.  In the source `WebhookType` is a
string type with two named constants. -/
abbrev WebhookType := String

/-- The mutating kind tag (source constant `MutatingWebhook = "mutating"`). -/
def MutatingWebhook : WebhookType := "mutating"

/-- The validating kind tag (source constant `ValidatingWebhook = "validating"`). -/
def ValidatingWebhook : WebhookType := "validating"

/-- A reference to one external webhook-configuration resource that must
receive the CA bundle: logical name plus kind. -/
structure WebhookRef where
  name : String
  type : WebhookType
deriving DecidableEq, Repr

/-- The external cluster state the syncer reads and writes: config-map records
keyed by (namespace, name) with string-keyed data, and the two kinds of
webhook-configuration resources keyed by name, each holding a list of
sub-webhook entries. -/
structure Cluster where
  configMaps : List (String × String × List (String × String))
  mutating : List (String × List Webhook)
  validating : List (String × List Webhook)
deriving DecidableEq, Repr

/-- The syncer's configuration (`NewSyncer(client, namespace,
caBundleConfigMapName, refs)`); the client is the explicit `Cluster` state. -/
structure Syncer where
  ns : String
  caBundleConfigMapName : String
  webhookRefs : List WebhookRef
deriving DecidableEq, Repr

/-- The well-known key of the CA-bundle record holding the PEM certificate. -/
def caBundleKey : String := "ca-bundle.crt"

/-- Set the client-TLS-trust field of every sub-webhook entry to the bundle. -/
def setAllBundles (hooks : List Webhook) (b : String) : List Webhook :=
  hooks.map (fun h => { h with caBundle := b })

/-- Replace the resource stored under `name` (first match) with `hooks`,
mirroring a Kubernetes Update of the named resource. -/
def setByName : List (String × List Webhook) → String → List Webhook →
    List (String × List Webhook)
  | [], _, _ => []
  | (n, hs) :: rest, name, hooks =>
    if n = name then (n, hooks) :: rest else (n, hs) :: setByName rest name hooks

/-- Modelled from the spec: the source file implementing the CA-bundle syncer
is not part of the available sources (only its tests are).  Per §4.3 of the
specification, `patchMutatingWebhook` fetches the mutating
webhook-configuration resource by name; if not found it skips without error;
otherwise it sets the client-TLS-trust field on every sub-webhook entry and
writes the resource back. -/
def patchMutatingWebhook (c : Cluster) (name : String) (b : String) :
    Except String Cluster :=
  match lookupKey c.mutating name with
  | none => .ok c
  | some hooks =>
    .ok { c with mutating := setByName c.mutating name (setAllBundles hooks b) }

/-- Modelled from the spec: identical to `patchMutatingWebhook`, against the
validating-kind resource (§4.3). -/
def patchValidatingWebhook (c : Cluster) (name : String) (b : String) :
    Except String Cluster :=
  match lookupKey c.validating name with
  | none => .ok c
  | some hooks =>
    .ok { c with validating := setByName c.validating name (setAllBundles hooks b) }

/-- Modelled from the spec: kind dispatch of the syncer (§4.3).  Mutating and
validating kinds go to the kind-specific patch routine; any other kind value
is reported as an error. -/
def patchWebhook (c : Cluster) (ref : WebhookRef) (b : String) :
    Except String Cluster :=
  if ref.type = MutatingWebhook then patchMutatingWebhook c ref.name b
  else if ref.type = ValidatingWebhook then patchValidatingWebhook c ref.name b
  else .error ("unknown webhook type: " ++ ref.type)

/-- Patch every configured reference in order, stopping at the first error. -/
def syncRefs (refs : List WebhookRef) (b : String) (c : Cluster) :
    Except String Cluster :=
  match refs with
  | [] => .ok c
  | ref :: rest =>
    match patchWebhook c ref b with
    | .error e => .error e
    | .ok c' => syncRefs rest b c'

/-- Modelled from the spec: one sync pass (§4.3).  Read the CA-bundle record;
if the record does not exist, or the expected key is absent, or its value is
empty, return without error and without touching any webhook-configuration
resource; otherwise dispatch every configured reference to its kind-specific
patch routine. -/
def syncCABundle (s : Syncer) (c : Cluster) : Except String Cluster :=
  match getNamespaced c.configMaps s.ns s.caBundleConfigMapName with
  | none => .ok c
  | some data =>
    match lookupKey data caBundleKey with
    | none => .ok c
    | some b => if b = "" then .ok c else syncRefs s.webhookRefs b c

end AutoCert

namespace AutoCert

/- ## Theorems about the syncer: no-op cases and kind dispatch -/

/-- C2: whenever the CA-bundle record does not exist, or its trust key is
absent, or the key's value is empty, `syncCABundle` returns no error and
returns the cluster state unchanged — zero writes to any
webhook-configuration resource, every sub-webhook entry untouched. -/
theorem syncCABundle_noop_when_bundle_absent_or_empty (s : Syncer) (c : Cluster)
    (h : getNamespaced c.configMaps s.ns s.caBundleConfigMapName = none ∨
      (∃ data, getNamespaced c.configMaps s.ns s.caBundleConfigMapName = some data ∧
        (lookupKey data caBundleKey = none ∨ lookupKey data caBundleKey = some ""))) :
    syncCABundle s c = .ok c := by
  rcases h with h | ⟨data, hdata, hkey | hkey⟩
  · simp [syncCABundle, h]
  · simp [syncCABundle, hdata, hkey]
  · simp [syncCABundle, hdata, hkey]

/-- Closed witness for `syncCABundle_noop_when_bundle_absent_or_empty`, at a
record that exists but holds an empty trust value. -/
theorem syncCABundle_noop_witness :
    syncCABundle
      ⟨"test-ns", "ca-bundle", [⟨"test-webhook", MutatingWebhook⟩]⟩
      ⟨[("test-ns", "ca-bundle", [("ca-bundle.crt", "")])],
        [("test-webhook", [⟨"test.webhook.svc", "original-ca"⟩])], []⟩ =
    .ok ⟨[("test-ns", "ca-bundle", [("ca-bundle.crt", "")])],
        [("test-webhook", [⟨"test.webhook.svc", "original-ca"⟩])], []⟩ :=
  syncCABundle_noop_when_bundle_absent_or_empty _ _
    (Or.inr ⟨[("ca-bundle.crt", "")], by decide, Or.inr (by decide)⟩)

/-- C6: for a webhook-configuration resource name that exists under neither
kind, both kind-specific patch routines return no error and leave the cluster
unchanged. -/
theorem patchWebhook_not_found_no_error_no_write (c : Cluster) (name b : String)
    (hm : lookupKey c.mutating name = none)
    (hv : lookupKey c.validating name = none) :
    patchMutatingWebhook c name b = .ok c ∧
    patchValidatingWebhook c name b = .ok c := by
  constructor
  · simp [patchMutatingWebhook, hm]
  · simp [patchValidatingWebhook, hv]

/-- Closed witness for `patchWebhook_not_found_no_error_no_write` on an empty
cluster and the name used by the repository's test. -/
theorem patchWebhook_not_found_witness :
    patchMutatingWebhook ⟨[], [], []⟩ "non-existent" "ca" = .ok ⟨[], [], []⟩ ∧
    patchValidatingWebhook ⟨[], [], []⟩ "non-existent" "ca" = .ok ⟨[], [], []⟩ :=
  patchWebhook_not_found_no_error_no_write ⟨[], [], []⟩ "non-existent" "ca" rfl rfl

/-- C7: for every reference whose kind is neither the mutating nor the
validating tag, the dispatch `patchWebhook` returns an error, regardless of
the reference's name, the bundle bytes, or the cluster state. -/
theorem patchWebhook_unknown_kind_errors (c : Cluster) (ref : WebhookRef) (b : String)
    (hm : ref.type ≠ MutatingWebhook) (hv : ref.type ≠ ValidatingWebhook) :
    ∃ e, patchWebhook c ref b = .error e := by
  refine ⟨"unknown webhook type: " ++ ref.type, ?_⟩
  simp [patchWebhook, hm, hv]

/-- Closed witness for `patchWebhook_unknown_kind_errors` at the kind tag used
by the repository's test. -/
theorem patchWebhook_unknown_kind_witness :
    ∃ e, patchWebhook ⟨[], [], []⟩ ⟨"test", "unknown"⟩ "ca" = .error e :=
  patchWebhook_unknown_kind_errors ⟨[], [], []⟩ ⟨"test", "unknown"⟩ "ca"
    (by decide) (by decide)

/- ## Propagation of a non-empty bundle (C1) -/

/-- The referenced resource, if present under the reference's kind, has every
sub-webhook entry's client-TLS-trust field equal to the bundle. -/
def refSynced (c : Cluster) (b : String) (ref : WebhookRef) : Prop :=
  (ref.type = MutatingWebhook →
    ∀ hs, lookupKey c.mutating ref.name = some hs → ∀ w ∈ hs, w.caBundle = b) ∧
  (ref.type = ValidatingWebhook →
    ∀ hs, lookupKey c.validating ref.name = some hs → ∀ w ∈ hs, w.caBundle = b)

theorem mem_setAllBundles {hs : List Webhook} {b : String} {w : Webhook}
    (hm : w ∈ setAllBundles hs b) : w.caBundle = b := by
  simp only [setAllBundles, List.mem_map] at hm
  obtain ⟨a, _, rfl⟩ := hm
  rfl

theorem lookupKey_setByName_self {l : List (String × List Webhook)} {name : String}
    {hs0 : List Webhook} (hooks : List Webhook) (h : lookupKey l name = some hs0) :
    lookupKey (setByName l name hooks) name = some hooks := by
  induction l with
  | nil => simp [lookupKey] at h
  | cons p rest ih =>
    obtain ⟨n, hs⟩ := p
    by_cases hn : n = name
    · simp [setByName, lookupKey, hn]
    · simp only [setByName, lookupKey, hn, if_false, if_neg hn] at h ⊢
      exact ih h

theorem lookupKey_setByName_other {l : List (String × List Webhook)} {name n : String}
    (hooks : List Webhook) (h : n ≠ name) :
    lookupKey (setByName l name hooks) n = lookupKey l n := by
  induction l with
  | nil => simp [setByName]
  | cons p rest ih =>
    obtain ⟨k, hs⟩ := p
    simp only [setByName]
    by_cases hk : k = name
    · rw [if_pos hk]
      have hkn : ¬ (k = n) := fun he => h (he ▸ hk)
      simp [lookupKey, hkn]
    · rw [if_neg hk]
      by_cases hkn : k = n
      · simp [lookupKey, hkn]
      · simp only [lookupKey, if_neg hkn]
        exact ih

/-- Everything a successful mutating patch guarantees: the validating side and
the config maps are untouched, the named resource (if present afterwards) is
fully stamped with the bundle, and every mutating resource is either unchanged
or fully stamped. -/
theorem patchMutatingWebhook_ok {c c' : Cluster} {name b : String}
    (h : patchMutatingWebhook c name b = .ok c') :
    c'.validating = c.validating ∧ c'.configMaps = c.configMaps ∧
    (∀ hs, lookupKey c'.mutating name = some hs → ∀ w ∈ hs, w.caBundle = b) ∧
    (∀ n hs, lookupKey c'.mutating n = some hs →
      lookupKey c.mutating n = some hs ∨ ∀ w ∈ hs, w.caBundle = b) := by
  unfold patchMutatingWebhook at h
  cases hl : lookupKey c.mutating name with
  | none =>
    rw [hl] at h
    obtain rfl : c = c' := by injection h
    refine ⟨rfl, rfl, ?_, fun n hs hn => Or.inl hn⟩
    intro hs hlook
    rw [hl] at hlook
    cases hlook
  | some hooks =>
    rw [hl] at h
    obtain rfl : { c with mutating := setByName c.mutating name (setAllBundles hooks b) } = c' := by
      injection h
    refine ⟨rfl, rfl, ?_, ?_⟩
    · intro hs hlook
      rw [lookupKey_setByName_self (setAllBundles hooks b) hl] at hlook
      obtain rfl : setAllBundles hooks b = hs := by injection hlook
      exact fun w hw => mem_setAllBundles hw
    · intro n hs hlook
      by_cases hn : n = name
      · subst hn
        rw [lookupKey_setByName_self (setAllBundles hooks b) hl] at hlook
        obtain rfl : setAllBundles hooks b = hs := by injection hlook
        exact Or.inr fun w hw => mem_setAllBundles hw
      · rw [lookupKey_setByName_other (setAllBundles hooks b) hn] at hlook
        exact Or.inl hlook

/-- Validating analogue of `patchMutatingWebhook_ok`. -/
theorem patchValidatingWebhook_ok {c c' : Cluster} {name b : String}
    (h : patchValidatingWebhook c name b = .ok c') :
    c'.mutating = c.mutating ∧ c'.configMaps = c.configMaps ∧
    (∀ hs, lookupKey c'.validating name = some hs → ∀ w ∈ hs, w.caBundle = b) ∧
    (∀ n hs, lookupKey c'.validating n = some hs →
      lookupKey c.validating n = some hs ∨ ∀ w ∈ hs, w.caBundle = b) := by
  unfold patchValidatingWebhook at h
  cases hl : lookupKey c.validating name with
  | none =>
    rw [hl] at h
    obtain rfl : c = c' := by injection h
    refine ⟨rfl, rfl, ?_, fun n hs hn => Or.inl hn⟩
    intro hs hlook
    rw [hl] at hlook
    cases hlook
  | some hooks =>
    rw [hl] at h
    obtain rfl : { c with validating := setByName c.validating name (setAllBundles hooks b) } = c' := by
      injection h
    refine ⟨rfl, rfl, ?_, ?_⟩
    · intro hs hlook
      rw [lookupKey_setByName_self (setAllBundles hooks b) hl] at hlook
      obtain rfl : setAllBundles hooks b = hs := by injection hlook
      exact fun w hw => mem_setAllBundles hw
    · intro n hs hlook
      by_cases hn : n = name
      · subst hn
        rw [lookupKey_setByName_self (setAllBundles hooks b) hl] at hlook
        obtain rfl : setAllBundles hooks b = hs := by injection hlook
        exact Or.inr fun w hw => mem_setAllBundles hw
      · rw [lookupKey_setByName_other (setAllBundles hooks b) hn] at hlook
        exact Or.inl hlook

theorem patchWebhook_preserves_refSynced {c c' : Cluster} {ref2 : WebhookRef}
    {b : String} (h : patchWebhook c ref2 b = .ok c') (ref : WebhookRef)
    (hsync : refSynced c b ref) : refSynced c' b ref := by
  unfold patchWebhook at h
  split at h
  · obtain ⟨hval, _, _, hframe⟩ := patchMutatingWebhook_ok h
    constructor
    · intro ht hs hl
      rcases hframe ref.name hs hl with hold | hb
      · exact hsync.1 ht hs hold
      · exact hb
    · intro ht hs hl
      rw [hval] at hl
      exact hsync.2 ht hs hl
  · split at h
    · obtain ⟨hmut, _, _, hframe⟩ := patchValidatingWebhook_ok h
      constructor
      · intro ht hs hl
        rw [hmut] at hl
        exact hsync.1 ht hs hl
      · intro ht hs hl
        rcases hframe ref.name hs hl with hold | hb
        · exact hsync.2 ht hs hold
        · exact hb
    · cases h

theorem patchWebhook_establishes {c c' : Cluster} {ref : WebhookRef} {b : String}
    (h : patchWebhook c ref b = .ok c') : refSynced c' b ref := by
  unfold patchWebhook at h
  split at h
  next hm =>
    obtain ⟨_, _, hself, _⟩ := patchMutatingWebhook_ok h
    exact ⟨fun _ => hself, fun hv => absurd (hm.symm.trans hv) (by decide)⟩
  next hm =>
    split at h
    next hv =>
      obtain ⟨_, _, hself, _⟩ := patchValidatingWebhook_ok h
      exact ⟨fun hm' => absurd hm' hm, fun _ => hself⟩
    next => cases h

theorem syncRefs_ok_refSynced (b : String) :
    ∀ (refs : List WebhookRef) (c c' : Cluster),
      syncRefs refs b c = .ok c' →
      (∀ ref, refSynced c b ref → refSynced c' b ref) ∧
      (∀ ref ∈ refs, refSynced c' b ref) := by
  intro refs
  induction refs with
  | nil =>
    intro c c' h
    obtain rfl : c = c' := by injection h
    exact ⟨fun _ hr => hr, by simp⟩
  | cons ref rest ih =>
    intro c c' h
    unfold syncRefs at h
    cases hp : patchWebhook c ref b with
    | error e => rw [hp] at h; cases h
    | ok c1 =>
      rw [hp] at h
      obtain ⟨pres, estab⟩ := ih c1 c' h
      refine ⟨fun r hr => pres r (patchWebhook_preserves_refSynced hp r hr), ?_⟩
      intro r hr
      rcases List.mem_cons.mp hr with rfl | hr'
      · exact pres r (patchWebhook_establishes hp)
      · exact estab r hr'

theorem patchWebhook_ok_of_valid (c : Cluster) (ref : WebhookRef) (b : String)
    (h : ref.type = MutatingWebhook ∨ ref.type = ValidatingWebhook) :
    ∃ c', patchWebhook c ref b = .ok c' := by
  rcases h with h | h
  · rw [patchWebhook, if_pos h]
    unfold patchMutatingWebhook
    cases lookupKey c.mutating ref.name <;> exact ⟨_, rfl⟩
  · have hne : ref.type ≠ MutatingWebhook := by rw [h]; decide
    rw [patchWebhook, if_neg hne, if_pos h]
    unfold patchValidatingWebhook
    cases lookupKey c.validating ref.name <;> exact ⟨_, rfl⟩

theorem syncRefs_ok_of_valid (b : String) :
    ∀ (refs : List WebhookRef) (c : Cluster),
      (∀ ref ∈ refs, ref.type = MutatingWebhook ∨ ref.type = ValidatingWebhook) →
      ∃ c', syncRefs refs b c = .ok c' := by
  intro refs
  induction refs with
  | nil => exact fun c _ => ⟨c, rfl⟩
  | cons ref rest ih =>
    intro c hvalid
    obtain ⟨c1, hc1⟩ := patchWebhook_ok_of_valid c ref b (hvalid ref (by simp))
    obtain ⟨c', hc'⟩ := ih c1 (fun r hr => hvalid r (List.mem_cons_of_mem _ hr))
    refine ⟨c', ?_⟩
    unfold syncRefs
    rw [hc1]
    exact hc'

/-- C1: when the CA-bundle record holds a non-empty value `B` under its trust
key, a run of `syncCABundle` succeeds (returns no error) and afterwards every
sub-webhook entry of every resource named by the configured reference list —
of either kind, with any number of entries — has its client-TLS-trust field
equal to `B`. -/
theorem syncCABundle_propagates_bundle (s : Syncer) (c : Cluster)
    (data : List (String × String)) (b : String)
    (hcm : getNamespaced c.configMaps s.ns s.caBundleConfigMapName = some data)
    (hkey : lookupKey data caBundleKey = some b)
    (hne : b ≠ "")
    (hkinds : ∀ ref ∈ s.webhookRefs,
      ref.type = MutatingWebhook ∨ ref.type = ValidatingWebhook) :
    ∃ c', syncCABundle s c = .ok c' ∧ ∀ ref ∈ s.webhookRefs, refSynced c' b ref := by
  obtain ⟨c', hc'⟩ := syncRefs_ok_of_valid b s.webhookRefs c hkinds
  refine ⟨c', ?_, (syncRefs_ok_refSynced b s.webhookRefs c c' hc').2⟩
  simp only [syncCABundle, hcm, hkey]
  rw [if_neg hne]
  exact hc'

/-- Closed witness for `syncCABundle_propagates_bundle`: one mutating reference
whose resource has three sub-webhook entries carrying old bundles. -/
theorem syncCABundle_propagates_bundle_witness :
    ∃ c', syncCABundle ⟨"test-ns", "ca-bundle", [⟨"w", MutatingWebhook⟩]⟩
        ⟨[("test-ns", "ca-bundle", [("ca-bundle.crt", "X")])],
          [("w", [⟨"h1", "old"⟩, ⟨"h2", "old"⟩, ⟨"h3", "old"⟩])], []⟩ = .ok c' ∧
      ∀ ref ∈ [WebhookRef.mk "w" MutatingWebhook], refSynced c' "X" ref :=
  syncCABundle_propagates_bundle
    ⟨"test-ns", "ca-bundle", [⟨"w", MutatingWebhook⟩]⟩
    ⟨[("test-ns", "ca-bundle", [("ca-bundle.crt", "X")])],
      [("w", [⟨"h1", "old"⟩, ⟨"h2", "old"⟩, ⟨"h3", "old"⟩])], []⟩
    [("ca-bundle.crt", "X")] "X" (by decide) (by decide) (by decide) (by decide)

/- ## Certificate provider -/

/-- A parsed TLS serving pair as held by the provider, carrying the raw bytes
of the certificate and of the private key it was built from.  The certificate
and key travel together as one immutable value, which is what makes the
atomic swap un-tearable. -/
structure TLSCertificate where
  certificateRaw : String
  keyRaw : String
deriving DecidableEq, Repr

/-- The certificate provider's per-replica state (`New(client, namespace,
secretName)` plus the atomically-swapped certificate handle and the readiness
flag). -/
structure Provider where
  ns : String
  name : String
  cert : Option TLSCertificate
  ready : Bool
deriving DecidableEq, Repr

/-- A freshly constructed provider: nothing loaded, not ready. -/
def Provider.new (ns name : String) : Provider := ⟨ns, name, none, false⟩

/-- `Ready()` returns the readiness flag. -/
def Provider.Ready (p : Provider) : Bool := p.ready

/-- `GetCertificate` returns the held certificate, or the "not loaded" error
when no valid pair has ever been observed. -/
def Provider.GetCertificate (p : Provider) : Except String TLSCertificate :=
  match p.cert with
  | none => .error "certificate not loaded"
  | some c => .ok c

/-- The secret key holding the PEM certificate. -/
def tlsCrtKey : String := "tls.crt"

/-- The secret key holding the PEM private key. -/
def tlsKeyKey : String := "tls.key"

/-- Modelled from the spec: Go's `tls.X509KeyPair` parses the PEM pair and
fails unless the private key corresponds to the certificate's public key
(§4.4).  The cryptographic parse-and-match step is abstracted as the
predicate `mtch`; a successful parse yields a pair carrying exactly the
supplied raw bytes. -/
def x509KeyPair (mtch : String → String → Bool) (certPEM keyPEM : String) :
    Option TLSCertificate :=
  if mtch certPEM keyPEM then some ⟨certPEM, keyPEM⟩ else none

/-- Modelled from the spec: the source file implementing the certificate
provider is not part of the available sources (only its tests are).  Per §4.4
of the specification, `onSecretUpdate` extracts the certificate and key fields
from the record; if either is absent, or the pair fails to parse or match, the
update is ignored and the previous state kept; on success the served
certificate is atomically replaced and the provider marked ready. -/
def onSecretUpdate (mtch : String → String → Bool) (p : Provider)
    (data : List (String × String)) : Provider :=
  match lookupKey data tlsCrtKey with
  | none => p
  | some certPEM =>
    match lookupKey data tlsKeyKey with
    | none => p
    | some keyPEM =>
      match x509KeyPair mtch certPEM keyPEM with
      | none => p
      | some c => { p with cert := some c, ready := true }

/-- Modelled from the spec: `loadCertificate` performs one direct point read
of the leaf-certificate secret and feeds it through the same update path;
absence of the record is not an error (§4.4). -/
def loadCertificate (mtch : String → String → Bool)
    (store : List (String × String × List (String × String))) (p : Provider) :
    Except String Provider :=
  match getNamespaced store p.ns p.name with
  | none => .ok p
  | some data => .ok (onSecretUpdate mtch p data)

/-- One observable input event to a provider: a watch update carrying a secret
record, or a direct point read against a secret store. -/
inductive ProviderEvent
  | secretUpdate (data : List (String × String))
  | load (store : List (String × String × List (String × String)))

/-- Apply one event to the provider state. -/
def applyEvent (mtch : String → String → Bool) (p : Provider)
    (e : ProviderEvent) : Provider :=
  match e with
  | .secretUpdate data => onSecretUpdate mtch p data
  | .load store =>
    match loadCertificate mtch store p with
    | .ok p' => p'
    | .error _ => p

/-- A secret record that cannot yield a serving pair: the certificate field or
the key field is absent, or the pair does not parse and match. -/
def secretDataFails (mtch : String → String → Bool)
    (data : List (String × String)) : Bool :=
  match lookupKey data tlsCrtKey, lookupKey data tlsKeyKey with
  | some crt, some key => !(mtch crt key)
  | _, _ => true

/-- An event that cannot succeed for a provider watching (ns, name): a failing
watch update, or a point read that finds nothing or finds failing data. -/
def eventFails (mtch : String → String → Bool) (ns name : String) :
    ProviderEvent → Bool
  | .secretUpdate data => secretDataFails mtch data
  | .load store =>
    match getNamespaced store ns name with
    | none => true
    | some data => secretDataFails mtch data

theorem onSecretUpdate_of_fails {mtch : String → String → Bool}
    {data : List (String × String)} (p : Provider)
    (h : secretDataFails mtch data = true) :
    onSecretUpdate mtch p data = p := by
  unfold secretDataFails at h
  unfold onSecretUpdate
  cases hc : lookupKey data tlsCrtKey with
  | none => rfl
  | some crt =>
    cases hk : lookupKey data tlsKeyKey with
    | none => rfl
    | some key =>
      rw [hc, hk] at h
      simp only [Bool.not_eq_true'] at h
      simp [x509KeyPair, h]

/-- C5: a bad update — missing certificate field, missing key field, or a pair
that fails to parse or match — leaves the provider state, hence both
`Ready()` and the certificate returned by `GetCertificate`, exactly as they
were before the call. -/
theorem provider_bad_update_preserves_state (mtch : String → String → Bool)
    (p : Provider) (data : List (String × String))
    (h : secretDataFails mtch data = true) :
    (onSecretUpdate mtch p data).Ready = p.Ready ∧
    (onSecretUpdate mtch p data).GetCertificate = p.GetCertificate := by
  rw [onSecretUpdate_of_fails p h]
  exact ⟨rfl, rfl⟩

/-- Closed witness for `provider_bad_update_preserves_state`: a loaded, ready
provider receives a record missing the certificate field. -/
theorem provider_bad_update_witness :
    (onSecretUpdate (fun _ _ => true)
        ⟨"test-ns", "test-secret", some ⟨"old-cert", "old-key"⟩, true⟩
        [("tls.key", "k")]).Ready =
      (⟨"test-ns", "test-secret", some ⟨"old-cert", "old-key"⟩, true⟩ : Provider).Ready ∧
    (onSecretUpdate (fun _ _ => true)
        ⟨"test-ns", "test-secret", some ⟨"old-cert", "old-key"⟩, true⟩
        [("tls.key", "k")]).GetCertificate =
      (⟨"test-ns", "test-secret", some ⟨"old-cert", "old-key"⟩, true⟩ : Provider).GetCertificate :=
  provider_bad_update_preserves_state (fun _ _ => true)
    ⟨"test-ns", "test-secret", some ⟨"old-cert", "old-key"⟩, true⟩
    [("tls.key", "k")] (by decide)

theorem applyEvent_of_fails {mtch : String → String → Bool} {ns name : String}
    {p : Provider} {e : ProviderEvent} (hns : p.ns = ns) (hname : p.name = name)
    (h : eventFails mtch ns name e = true) : applyEvent mtch p e = p := by
  cases e with
  | secretUpdate data => exact onSecretUpdate_of_fails p h
  | load store =>
    simp only [eventFails] at h
    simp only [applyEvent, loadCertificate, hns, hname]
    cases hg : getNamespaced store ns name with
    | none => simp [hg]
    | some data =>
      rw [hg] at h
      simp only [hg]
      exact onSecretUpdate_of_fails p h

/-- C4: a provider on which no update or load has ever succeeded — for every
sequence of failed watch updates and failed point reads after construction —
is not `Ready()` and `GetCertificate` returns the "not loaded" error. -/
theorem provider_never_ready_without_successful_update
    (mtch : String → String → Bool) (ns name : String)
    (events : List ProviderEvent)
    (h : ∀ e ∈ events, eventFails mtch ns name e = true) :
    (events.foldl (applyEvent mtch) (Provider.new ns name)).Ready = false ∧
    (events.foldl (applyEvent mtch) (Provider.new ns name)).GetCertificate =
      .error "certificate not loaded" := by
  have hfix : events.foldl (applyEvent mtch) (Provider.new ns name) =
      Provider.new ns name := by
    induction events with
    | nil => rfl
    | cons e rest ih =>
      rw [List.foldl_cons, applyEvent_of_fails rfl rfl (h e (by simp))]
      exact ih fun e' he' => h e' (List.mem_cons_of_mem _ he')
  rw [hfix]
  exact ⟨rfl, rfl⟩

/-- Closed witness for `provider_never_ready_without_successful_update`: one
failing watch update (missing key) followed by one point read of a store that
does not hold the secret. -/
theorem provider_never_ready_witness :
    (([ProviderEvent.secretUpdate [("tls.crt", "c")],
        ProviderEvent.load []]).foldl (applyEvent (fun _ _ => true))
        (Provider.new "test-ns" "test-secret")).Ready = false ∧
    (([ProviderEvent.secretUpdate [("tls.crt", "c")],
        ProviderEvent.load []]).foldl (applyEvent (fun _ _ => true))
        (Provider.new "test-ns" "test-secret")).GetCertificate =
      .error "certificate not loaded" :=
  provider_never_ready_without_successful_update (fun _ _ => true)
    "test-ns" "test-secret"
    [ProviderEvent.secretUpdate [("tls.crt", "c")], ProviderEvent.load []]
    (by intro e he; fin_cases he <;> decide)

/-- C3: after one valid, matching update the provider is ready and serves
exactly the supplied certificate bytes; after a second valid update with
different material it serves exactly the new pair — never the old certificate
with the new key or vice versa — and the old and new raw bytes differ. -/
theorem provider_reload_serves_supplied_bytes (mtch : String → String → Bool)
    (ns name : String) (d1 d2 : List (String × String))
    (crt1 key1 crt2 key2 : String)
    (hc1 : lookupKey d1 tlsCrtKey = some crt1)
    (hk1 : lookupKey d1 tlsKeyKey = some key1)
    (hm1 : mtch crt1 key1 = true)
    (hc2 : lookupKey d2 tlsCrtKey = some crt2)
    (hk2 : lookupKey d2 tlsKeyKey = some key2)
    (hm2 : mtch crt2 key2 = true)
    (hdiff : crt1 ≠ crt2) :
    (onSecretUpdate mtch (Provider.new ns name) d1).Ready = true ∧
    (onSecretUpdate mtch (Provider.new ns name) d1).GetCertificate =
      .ok ⟨crt1, key1⟩ ∧
    (onSecretUpdate mtch (onSecretUpdate mtch (Provider.new ns name) d1)
        d2).Ready = true ∧
    (onSecretUpdate mtch (onSecretUpdate mtch (Provider.new ns name) d1)
        d2).GetCertificate = .ok ⟨crt2, key2⟩ ∧
    (⟨crt2, key2⟩ : TLSCertificate).certificateRaw ≠
      (⟨crt1, key1⟩ : TLSCertificate).certificateRaw := by
  have h1 : onSecretUpdate mtch (Provider.new ns name) d1 =
      { Provider.new ns name with cert := some ⟨crt1, key1⟩, ready := true } := by
    simp [onSecretUpdate, hc1, hk1, x509KeyPair, hm1]
  have h2 : onSecretUpdate mtch
      { Provider.new ns name with cert := some ⟨crt1, key1⟩, ready := true } d2 =
      { Provider.new ns name with cert := some ⟨crt2, key2⟩, ready := true } := by
    simp [onSecretUpdate, hc2, hk2, x509KeyPair, hm2]
  rw [h1, h2]
  exact ⟨rfl, rfl, rfl, rfl, fun he => hdiff (he.symm)⟩

/-- Closed witness for `provider_reload_serves_supplied_bytes` with two
distinct concrete pairs, both accepted by the match predicate. -/
theorem provider_reload_witness :
    (onSecretUpdate (fun _ _ => true) (Provider.new "ns" "s")
        [("tls.crt", "cert1"), ("tls.key", "key1")]).Ready = true ∧
    (onSecretUpdate (fun _ _ => true) (Provider.new "ns" "s")
        [("tls.crt", "cert1"), ("tls.key", "key1")]).GetCertificate =
      .ok ⟨"cert1", "key1"⟩ ∧
    (onSecretUpdate (fun _ _ => true)
        (onSecretUpdate (fun _ _ => true) (Provider.new "ns" "s")
          [("tls.crt", "cert1"), ("tls.key", "key1")])
        [("tls.crt", "cert2"), ("tls.key", "key2")]).Ready = true ∧
    (onSecretUpdate (fun _ _ => true)
        (onSecretUpdate (fun _ _ => true) (Provider.new "ns" "s")
          [("tls.crt", "cert1"), ("tls.key", "key1")])
        [("tls.crt", "cert2"), ("tls.key", "key2")]).GetCertificate =
      .ok ⟨"cert2", "key2"⟩ ∧
    (⟨"cert2", "key2"⟩ : TLSCertificate).certificateRaw ≠
      (⟨"cert1", "key1"⟩ : TLSCertificate).certificateRaw :=
  provider_reload_serves_supplied_bytes (fun _ _ => true) "ns" "s"
    [("tls.crt", "cert1"), ("tls.key", "key1")]
    [("tls.crt", "cert2"), ("tls.key", "key2")]
    "cert1" "key1" "cert2" "key2"
    (by decide) (by decide) rfl (by decide) (by decide) rfl (by decide)

/- ## Library entry point: hooks, reference determination, run validation -/

/-- The kind tag of a user-registered hook (`webhook.HookType`, a string type
with the two constants below; the concrete tag values are not observable in
the available sources and are only required to be distinct). -/
abbrev HookType := String

/-- The mutating hook kind (`webhook.Mutating`). -/
def Mutating : HookType := "mutating"

/-- The validating hook kind (`webhook.Validating`). -/
def Validating : HookType := "validating"

/-- A user-registered hook endpoint (`webhook.Hook`); the handler function is
irrelevant to reference determination and run validation and is elided. -/
structure Hook where
  path : String
  type : HookType
deriving DecidableEq, Repr

/-- The loop body of `determineWebhookRefs`: walk the hooks in order, carrying
the two seen-kind flags, appending one reference the first time each kind is
encountered. -/
def determineWebhookRefsLoop (name : String) :
    List Hook → Bool → Bool → List WebhookRef
  | [], _, _ => []
  | hook :: rest, hasMutating, hasValidating =>
    let addM := hook.type == Mutating && !hasMutating
    let addV := hook.type == Validating && !hasValidating
    (if addM then [⟨name, MutatingWebhook⟩] else []) ++
    (if addV then [⟨name, ValidatingWebhook⟩] else []) ++
    determineWebhookRefsLoop name rest (hasMutating || addM) (hasValidating || addV)

/-- `determineWebhookRefs` from src/pkg/admission/run.go: the deduplicated
reference list for the CA-bundle syncer. -/
def determineWebhookRefs (name : String) (hooks : List Hook) : List WebhookRef :=
  determineWebhookRefsLoop name hooks false false

def isMutatingRef (r : WebhookRef) : Bool := r.type == MutatingWebhook

def isValidatingRef (r : WebhookRef) : Bool := r.type == ValidatingWebhook

theorem countP_mutRef_ite (name : String) (b : Bool) :
    (if b then [WebhookRef.mk name MutatingWebhook] else []).countP isMutatingRef =
      if b then 1 else 0 := by
  cases b <;> simp [isMutatingRef, List.countP_cons]

theorem countP_mutRef_ite_val (name : String) (b : Bool) :
    (if b then [WebhookRef.mk name ValidatingWebhook] else []).countP isMutatingRef = 0 := by
  cases b <;> simp [isMutatingRef, ValidatingWebhook, MutatingWebhook, List.countP_cons]

theorem countP_valRef_ite (name : String) (b : Bool) :
    (if b then [WebhookRef.mk name ValidatingWebhook] else []).countP isValidatingRef =
      if b then 1 else 0 := by
  cases b <;> simp [isValidatingRef, List.countP_cons]

theorem countP_valRef_ite_mut (name : String) (b : Bool) :
    (if b then [WebhookRef.mk name MutatingWebhook] else []).countP isValidatingRef = 0 := by
  cases b <;> simp [isValidatingRef, ValidatingWebhook, MutatingWebhook, List.countP_cons]

theorem length_refs_ite (r : WebhookRef) (b : Bool) :
    (if b then [r] else []).length = if b then 1 else 0 := by
  cases b <;> simp

theorem determineWebhookRefsLoop_countM (name : String) :
    ∀ (hooks : List Hook) (hasM hasV : Bool),
      (determineWebhookRefsLoop name hooks hasM hasV).countP isMutatingRef =
        if !hasM && hooks.any (fun h => h.type == Mutating) then 1 else 0 := by
  intro hooks
  induction hooks with
  | nil => intro hasM hasV; simp [determineWebhookRefsLoop]
  | cons hook rest ih =>
    intro hasM hasV
    simp only [determineWebhookRefsLoop, List.countP_append, List.any_cons,
      countP_mutRef_ite, countP_mutRef_ite_val, ih]
    cases hasM <;> by_cases hm : hook.type = Mutating <;> simp [hm]

theorem determineWebhookRefsLoop_countV (name : String) :
    ∀ (hooks : List Hook) (hasM hasV : Bool),
      (determineWebhookRefsLoop name hooks hasM hasV).countP isValidatingRef =
        if !hasV && hooks.any (fun h => h.type == Validating) then 1 else 0 := by
  intro hooks
  induction hooks with
  | nil => intro hasM hasV; simp [determineWebhookRefsLoop]
  | cons hook rest ih =>
    intro hasM hasV
    simp only [determineWebhookRefsLoop, List.countP_append, List.any_cons,
      countP_valRef_ite, countP_valRef_ite_mut, ih]
    cases hasV <;> by_cases hv : hook.type = Validating <;> simp [hv]

theorem determineWebhookRefsLoop_length (name : String) :
    ∀ (hooks : List Hook) (hasM hasV : Bool),
      (determineWebhookRefsLoop name hooks hasM hasV).length =
        (determineWebhookRefsLoop name hooks hasM hasV).countP isMutatingRef +
        (determineWebhookRefsLoop name hooks hasM hasV).countP isValidatingRef := by
  intro hooks
  induction hooks with
  | nil => intro hasM hasV; simp [determineWebhookRefsLoop]
  | cons hook rest ih =>
    intro hasM hasV
    simp only [determineWebhookRefsLoop, List.countP_append, List.length_append,
      countP_mutRef_ite, countP_mutRef_ite_val, countP_valRef_ite,
      countP_valRef_ite_mut, length_refs_ite, ih]
    omega

theorem determineWebhookRefsLoop_names (name : String) :
    ∀ (hooks : List Hook) (hasM hasV : Bool),
      ∀ r ∈ determineWebhookRefsLoop name hooks hasM hasV, r.name = name := by
  intro hooks
  induction hooks with
  | nil => intro hasM hasV r hr; simp [determineWebhookRefsLoop] at hr
  | cons hook rest ih =>
    intro hasM hasV r hr
    simp only [determineWebhookRefsLoop, List.mem_append] at hr
    rcases hr with (hr | hr) | hr
    · cases hm : (hook.type == Mutating && !hasM) <;> rw [hm] at hr <;> simp at hr
      rw [hr]
    · cases hv : (hook.type == Validating && !hasV) <;> rw [hv] at hr <;> simp at hr
      rw [hr]
    · exact ih _ _ r hr

/-- C8: `determineWebhookRefs` is deduplicated, one entry per kind for the
given logical name: the mutating (resp. validating) reference appears exactly
once when any hook of that kind is registered and never otherwise; every
produced reference is of one of the two kinds (so an empty hook list yields no
references, N same-kind hooks yield exactly one, and one hook of each kind
yields exactly two); and every reference carries the given name. -/
theorem determineWebhookRefs_deduplicates (name : String) (hooks : List Hook) :
    ((determineWebhookRefs name hooks).countP isMutatingRef =
      if hooks.any (fun h => h.type == Mutating) then 1 else 0) ∧
    ((determineWebhookRefs name hooks).countP isValidatingRef =
      if hooks.any (fun h => h.type == Validating) then 1 else 0) ∧
    ((determineWebhookRefs name hooks).length =
      (determineWebhookRefs name hooks).countP isMutatingRef +
      (determineWebhookRefs name hooks).countP isValidatingRef) ∧
    ∀ r ∈ determineWebhookRefs name hooks, r.name = name := by
  refine ⟨?_, ?_, ?_, ?_⟩
  · rw [determineWebhookRefs, determineWebhookRefsLoop_countM]
    simp
  · rw [determineWebhookRefs, determineWebhookRefsLoop_countV]
    simp
  · exact determineWebhookRefsLoop_length name hooks false false
  · exact determineWebhookRefsLoop_names name hooks false false

/- ## Server configuration (ServerConfig, defaults, user overrides) -/

/-- One nanosecond of Go `time.Duration`. -/
def nanosecond : Int := 1

/-- One second of Go `time.Duration`, in nanoseconds. -/
def second : Int := 1000000000

/-- One hour of Go `time.Duration`, in nanoseconds. -/
def hour : Int := 3600 * second

/-- The internal server configuration (`ServerConfig`); Go strings start as
`""`, durations are `time.Duration` nanosecond counts. -/
structure ServerConfig where
  name : String
  ns : String
  serviceName : String
  port : Int
  metricsEnabled : Bool
  metricsPort : Int
  healthzPath : String
  readyzPath : String
  metricsPath : String
  caSecretName : String
  certSecretName : String
  caBundleConfigMapName : String
  caValidity : Int
  caRefresh : Int
  certValidity : Int
  certRefresh : Int
  leaderElection : Bool
  leaderElectionID : String
  leaseDuration : Int
  renewDeadline : Int
  retryPeriod : Int
deriving DecidableEq, Repr

def DefaultNamespace : String := "default"
def DefaultPort : Int := 8443
def DefaultMetricsEnabled : Bool := true
def DefaultMetricsPort : Int := 8080
def DefaultMetricsPath : String := "/metrics"
def DefaultHealthzPath : String := "/healthz"
def DefaultReadyzPath : String := "/readyz"
def DefaultCAValidity : Int := 2 * 24 * hour
def DefaultCARefresh : Int := 1 * 24 * hour
def DefaultCertValidity : Int := 1 * 24 * hour
def DefaultCertRefresh : Int := 12 * hour
def DefaultLeaderElection : Bool := true
def DefaultLeaseDuration : Int := 30 * second
def DefaultRenewDeadline : Int := 10 * second
def DefaultRetryPeriod : Int := 5 * second

/-- `DefaultServerConfig`: default values, with the namespace taken from the
`POD_NAMESPACE` environment variable when set (`os.Getenv` yields `""` when
unset).  Fields the source leaves untouched start at Go zero values. -/
def DefaultServerConfig (podNamespace : String) : ServerConfig :=
  let ns := if podNamespace = "" then DefaultNamespace else podNamespace
  { name := ""
    ns := ns
    serviceName := ""
    port := DefaultPort
    metricsEnabled := DefaultMetricsEnabled
    metricsPort := DefaultMetricsPort
    healthzPath := DefaultHealthzPath
    readyzPath := DefaultReadyzPath
    metricsPath := DefaultMetricsPath
    caSecretName := ""
    certSecretName := ""
    caBundleConfigMapName := ""
    caValidity := DefaultCAValidity
    caRefresh := DefaultCARefresh
    certValidity := DefaultCertValidity
    certRefresh := DefaultCertRefresh
    leaderElection := DefaultLeaderElection
    leaderElectionID := ""
    leaseDuration := DefaultLeaseDuration
    renewDeadline := DefaultRenewDeadline
    retryPeriod := DefaultRetryPeriod }

/-- The user-facing configuration returned by `Configure()` (`webhook.Config`);
optional booleans are Go `*bool` pointers. -/
structure WebhookConfig where
  name : String
  ns : String
  serviceName : String
  port : Int
  metricsPort : Int
  metricsEnabled : Option Bool
  leaderElection : Option Bool
deriving DecidableEq, Repr

/-- `ApplyUserConfig`: apply the user-provided configuration on top of the
defaults, deriving the dependent names from a non-empty user name. -/
def ApplyUserConfig (c : ServerConfig) (userCfg : WebhookConfig) : ServerConfig :=
  let c := if userCfg.name ≠ "" then
      { c with
        name := userCfg.name
        serviceName := userCfg.name
        caSecretName := userCfg.name ++ "-ca"
        certSecretName := userCfg.name ++ "-cert"
        caBundleConfigMapName := userCfg.name ++ "-ca-bundle"
        leaderElectionID := userCfg.name ++ "-leader" }
    else c
  let c := if userCfg.ns ≠ "" then { c with ns := userCfg.ns } else c
  let c := if userCfg.serviceName ≠ "" then
      { c with serviceName := userCfg.serviceName } else c
  let c := if userCfg.port > 0 then { c with port := userCfg.port } else c
  let c := if userCfg.metricsPort > 0 then
      { c with metricsPort := userCfg.metricsPort } else c
  let c := match userCfg.metricsEnabled with
    | some v => { c with metricsEnabled := v }
    | none => c
  match userCfg.leaderElection with
  | some v => { c with leaderElection := v }
  | none => c

/-- The background subsystems that `RunWithContext` launches. -/
inductive Subsystem
  | certProvider
  | httpServer
  | metricsServer
  | leaderElection
  | certManager
  | caBundleSyncer
deriving DecidableEq, Repr

/-- The observable outcome of the entry point: the returned error (or the
reached top-level wait) together with the subsystems launched by then. -/
structure RunOutcome where
  result : Except String Unit
  started : List Subsystem
deriving Repr

/-- Shallow embedding of `RunWithContext` (src/pkg/admission/run.go) up to the
top-level wait: the results of the user's `Configure()` and `Webhooks()` are
passed as values, the functional options as functions, and construction of the
in-cluster client as two success flags.  `started` records which background
subsystems have been launched when the function reaches its return or wait
point; the goroutine bodies themselves are not modelled. -/
def RunWithContext (userConfig : WebhookConfig) (hooks : List Hook)
    (opts : List (ServerConfig → ServerConfig)) (podNamespace : String)
    (inClusterConfigOk clientOk : Bool) : RunOutcome :=
  if userConfig.name = "" then
    ⟨.error "webhook name is required in Configure()", []⟩
  else if hooks.length = 0 then
    ⟨.error "at least one webhook hook is required in Webhooks()", []⟩
  else
    let config := opts.foldl (fun c o => o c)
      (ApplyUserConfig (DefaultServerConfig podNamespace) userConfig)
    if !inClusterConfigOk then ⟨.error "failed to get in-cluster config", []⟩
    else if !clientOk then ⟨.error "failed to create Kubernetes client", []⟩
    else
      ⟨.ok (), [Subsystem.certProvider, Subsystem.httpServer] ++
        (if config.metricsEnabled then [Subsystem.metricsServer] else []) ++
        (if config.leaderElection then [Subsystem.leaderElection]
          else [Subsystem.certManager, Subsystem.caBundleSyncer])⟩

/-- C9: when `Configure()` yields an empty name or `Webhooks()` yields an empty
hook list, `RunWithContext` returns an error and no subsystem has been
started, whatever the options, environment and cluster conditions. -/
theorem runWithContext_rejects_invalid_admission (userConfig : WebhookConfig)
    (hooks : List Hook) (opts : List (ServerConfig → ServerConfig))
    (podNamespace : String) (inClusterConfigOk clientOk : Bool)
    (h : userConfig.name = "" ∨ hooks = []) :
    (∃ e, (RunWithContext userConfig hooks opts podNamespace
        inClusterConfigOk clientOk).result = .error e) ∧
    (RunWithContext userConfig hooks opts podNamespace
        inClusterConfigOk clientOk).started = [] := by
  by_cases hn : userConfig.name = ""
  · exact ⟨⟨"webhook name is required in Configure()",
      by simp [RunWithContext, hn]⟩, by simp [RunWithContext, hn]⟩
  · rcases h with h | rfl
    · exact absurd h hn
    · exact ⟨⟨"at least one webhook hook is required in Webhooks()",
        by simp [RunWithContext, hn]⟩, by simp [RunWithContext, hn]⟩

/-- Closed witness for `runWithContext_rejects_invalid_admission`: an empty
webhook name with one registered hook. -/
theorem runWithContext_rejects_witness :
    (∃ e, (RunWithContext ⟨"", "", "", 0, 0, none, none⟩
        [⟨"/mutate", Mutating⟩] [] "" true true).result = .error e) ∧
    (RunWithContext ⟨"", "", "", 0, 0, none, none⟩
        [⟨"/mutate", Mutating⟩] [] "" true true).started = [] :=
  runWithContext_rejects_invalid_admission ⟨"", "", "", 0, 0, none, none⟩
    [⟨"/mutate", Mutating⟩] [] "" true true (Or.inl rfl)

/- ## Root-package configuration resolution chain -/

/-- The root-package user configuration struct (`Config`); Go zero values are
`""` for strings, `0` for ints and durations, and `nil` (here `none`) for the
optional booleans. -/
structure Config where
  name : String
  ns : String
  serviceName : String
  port : Int
  metricsEnabled : Option Bool
  metricsPort : Int
  metricsPath : String
  healthzPath : String
  readyzPath : String
  caSecretName : String
  certSecretName : String
  caBundleConfigMapName : String
  caValidity : Int
  caRefresh : Int
  certValidity : Int
  certRefresh : Int
  leaderElection : Option Bool
  leaderElectionID : String
  leaseDuration : Int
  renewDeadline : Int
  retryPeriod : Int
deriving DecidableEq, Repr

/-- The environment bindings seen by the env binder, decoded to their field
types (`ACW_PORT="9999"` arrives as `port = some 9999`; `none` means the
variable is unset).  Decoding of the raw strings (integers, `time.Duration`
forms such as "100h") is Go standard-library behavior outside this
subsystem's logic; the modelled variables are the ones the repository's tests
exercise. -/
structure EnvConfig where
  name : Option String
  ns : Option String
  port : Option Int
  metricsPort : Option Int
  metricsPath : Option String
  healthzPath : Option String
  readyzPath : Option String
  caValidity : Option Int
  caRefresh : Option Int
  certValidity : Option Int
  certRefresh : Option Int
  leaseDuration : Option Int
  renewDeadline : Option Int
  retryPeriod : Option Int
  metricsEnabled : Option Bool
  leaderElection : Option Bool
deriving DecidableEq, Repr

/-- Resolve one string field: a non-empty code value wins, else a set
environment variable, else the struct-tag default. -/
def resolveStr (code : String) (env : Option String) (dflt : String) : String :=
  if code ≠ "" then code else env.getD dflt

/-- Resolve one integer or duration field: a non-zero code value wins, else a
set environment variable, else the struct-tag default. -/
def resolveInt (code : Int) (env : Option Int) (dflt : Int) : Int :=
  if code ≠ 0 then code else env.getD dflt

/-- Resolve one optional-boolean field: a code-set pointer wins, else the
environment-provided value (these fields have no struct-tag default). -/
def resolveOptBool (code env : Option Bool) : Option Bool :=
  if code.isSome then code else env

/-- Modelled from the spec: the root run.go file implementing `applyEnvConfig`
is not part of the available sources (only its tests are).  Per the
repository's tests and §6 of the specification, each field resolves as: a
non-zero value set in code is kept; otherwise a set environment variable is
used; otherwise the struct-tag default applies. -/
def applyEnvConfig (env : EnvConfig) (cfg : Config) : Config :=
  { cfg with
    name := resolveStr cfg.name env.name ""
    ns := resolveStr cfg.ns env.ns ""
    port := resolveInt cfg.port env.port DefaultPort
    metricsPort := resolveInt cfg.metricsPort env.metricsPort DefaultMetricsPort
    metricsPath := resolveStr cfg.metricsPath env.metricsPath DefaultMetricsPath
    healthzPath := resolveStr cfg.healthzPath env.healthzPath DefaultHealthzPath
    readyzPath := resolveStr cfg.readyzPath env.readyzPath DefaultReadyzPath
    caValidity := resolveInt cfg.caValidity env.caValidity DefaultCAValidity
    caRefresh := resolveInt cfg.caRefresh env.caRefresh DefaultCARefresh
    certValidity := resolveInt cfg.certValidity env.certValidity DefaultCertValidity
    certRefresh := resolveInt cfg.certRefresh env.certRefresh DefaultCertRefresh
    leaseDuration := resolveInt cfg.leaseDuration env.leaseDuration DefaultLeaseDuration
    renewDeadline := resolveInt cfg.renewDeadline env.renewDeadline DefaultRenewDeadline
    retryPeriod := resolveInt cfg.retryPeriod env.retryPeriod DefaultRetryPeriod
    metricsEnabled := resolveOptBool cfg.metricsEnabled env.metricsEnabled
    leaderElection := resolveOptBool cfg.leaderElection env.leaderElection }

/-- Modelled from the spec: `applyDefaults` fills the name-derived fields
(service name, secret and config-map names, leader-election lease name) only
when they were not explicitly set. -/
def applyDefaults (cfg : Config) : Config :=
  let cfg := if cfg.serviceName = "" then
      { cfg with serviceName := cfg.name } else cfg
  let cfg := if cfg.caSecretName = "" then
      { cfg with caSecretName := cfg.name ++ "-ca" } else cfg
  let cfg := if cfg.certSecretName = "" then
      { cfg with certSecretName := cfg.name ++ "-cert" } else cfg
  let cfg := if cfg.caBundleConfigMapName = "" then
      { cfg with caBundleConfigMapName := cfg.name ++ "-ca-bundle" } else cfg
  if cfg.leaderElectionID = "" then
    { cfg with leaderElectionID := cfg.name ++ "-leader" } else cfg

theorem applyDefaults_fields (cfg : Config) :
    (applyDefaults cfg).name = cfg.name ∧
    (applyDefaults cfg).metricsEnabled = cfg.metricsEnabled ∧
    (applyDefaults cfg).port = cfg.port ∧
    (applyDefaults cfg).metricsPort = cfg.metricsPort ∧
    (applyDefaults cfg).caValidity = cfg.caValidity ∧
    (applyDefaults cfg).caRefresh = cfg.caRefresh ∧
    (applyDefaults cfg).certValidity = cfg.certValidity ∧
    (applyDefaults cfg).certRefresh = cfg.certRefresh ∧
    (applyDefaults cfg).leaseDuration = cfg.leaseDuration ∧
    (applyDefaults cfg).renewDeadline = cfg.renewDeadline ∧
    (applyDefaults cfg).retryPeriod = cfg.retryPeriod ∧
    (applyDefaults cfg).serviceName =
      (if cfg.serviceName = "" then cfg.name else cfg.serviceName) ∧
    (applyDefaults cfg).caSecretName =
      (if cfg.caSecretName = "" then cfg.name ++ "-ca" else cfg.caSecretName) ∧
    (applyDefaults cfg).certSecretName =
      (if cfg.certSecretName = "" then cfg.name ++ "-cert" else cfg.certSecretName) ∧
    (applyDefaults cfg).caBundleConfigMapName =
      (if cfg.caBundleConfigMapName = "" then cfg.name ++ "-ca-bundle"
        else cfg.caBundleConfigMapName) ∧
    (applyDefaults cfg).leaderElectionID =
      (if cfg.leaderElectionID = "" then cfg.name ++ "-leader"
        else cfg.leaderElectionID) := by
  simp only [applyDefaults]
  split_ifs <;> simp_all

/-- C10: the resolution chain is code over environment over defaults for every
field — a non-zero code value is never overwritten by an environment
variable, an environment variable overrides the built-in default, and absent
both the documented defaults apply (port 8443, metrics port 8080, CA validity
48h, CA refresh 24h, cert validity 24h, cert refresh 12h, lease duration 30s,
renew deadline 10s, retry period 5s, in nanoseconds) — and the name-derived
fields are filled from the resolved name only when not explicitly set. -/
theorem config_priority_chain (cfg : Config) (env : EnvConfig) :
    (applyDefaults (applyEnvConfig env cfg)).port =
      (if cfg.port ≠ 0 then cfg.port else env.port.getD 8443) ∧
    (applyDefaults (applyEnvConfig env cfg)).metricsPort =
      (if cfg.metricsPort ≠ 0 then cfg.metricsPort else env.metricsPort.getD 8080) ∧
    (applyDefaults (applyEnvConfig env cfg)).caValidity =
      (if cfg.caValidity ≠ 0 then cfg.caValidity
        else env.caValidity.getD 172800000000000) ∧
    (applyDefaults (applyEnvConfig env cfg)).caRefresh =
      (if cfg.caRefresh ≠ 0 then cfg.caRefresh
        else env.caRefresh.getD 86400000000000) ∧
    (applyDefaults (applyEnvConfig env cfg)).certValidity =
      (if cfg.certValidity ≠ 0 then cfg.certValidity
        else env.certValidity.getD 86400000000000) ∧
    (applyDefaults (applyEnvConfig env cfg)).certRefresh =
      (if cfg.certRefresh ≠ 0 then cfg.certRefresh
        else env.certRefresh.getD 43200000000000) ∧
    (applyDefaults (applyEnvConfig env cfg)).leaseDuration =
      (if cfg.leaseDuration ≠ 0 then cfg.leaseDuration
        else env.leaseDuration.getD 30000000000) ∧
    (applyDefaults (applyEnvConfig env cfg)).renewDeadline =
      (if cfg.renewDeadline ≠ 0 then cfg.renewDeadline
        else env.renewDeadline.getD 10000000000) ∧
    (applyDefaults (applyEnvConfig env cfg)).retryPeriod =
      (if cfg.retryPeriod ≠ 0 then cfg.retryPeriod
        else env.retryPeriod.getD 5000000000) ∧
    (applyDefaults (applyEnvConfig env cfg)).metricsEnabled =
      (if cfg.metricsEnabled.isSome then cfg.metricsEnabled
        else env.metricsEnabled) ∧
    (applyDefaults (applyEnvConfig env cfg)).serviceName =
      (if cfg.serviceName = ""
        then (if cfg.name ≠ "" then cfg.name else env.name.getD "")
        else cfg.serviceName) ∧
    (applyDefaults (applyEnvConfig env cfg)).caSecretName =
      (if cfg.caSecretName = ""
        then (if cfg.name ≠ "" then cfg.name else env.name.getD "") ++ "-ca"
        else cfg.caSecretName) ∧
    (applyDefaults (applyEnvConfig env cfg)).certSecretName =
      (if cfg.certSecretName = ""
        then (if cfg.name ≠ "" then cfg.name else env.name.getD "") ++ "-cert"
        else cfg.certSecretName) ∧
    (applyDefaults (applyEnvConfig env cfg)).caBundleConfigMapName =
      (if cfg.caBundleConfigMapName = ""
        then (if cfg.name ≠ "" then cfg.name else env.name.getD "") ++ "-ca-bundle"
        else cfg.caBundleConfigMapName) ∧
    (applyDefaults (applyEnvConfig env cfg)).leaderElectionID =
      (if cfg.leaderElectionID = ""
        then (if cfg.name ≠ "" then cfg.name else env.name.getD "") ++ "-leader"
        else cfg.leaderElectionID) := by
  obtain ⟨hn, hme, hp, hmp, hcav, hcar, hcev, hcer, hld, hrd, hrp, hsn, hcas, hces, hcab, hle⟩ :=
    applyDefaults_fields (applyEnvConfig env cfg)
  refine ⟨?_, ?_, ?_, ?_, ?_, ?_, ?_, ?_, ?_, ?_, ?_, ?_, ?_, ?_, ?_⟩ <;>
    simp only [hn, hme, hp, hmp, hcav, hcar, hcev, hcer, hld, hrd, hrp, hsn,
      hcas, hcab, hces, hle] <;>
    simp [applyEnvConfig, resolveInt, resolveStr, resolveOptBool,
      DefaultPort, DefaultMetricsPort, DefaultCAValidity, DefaultCARefresh,
      DefaultCertValidity, DefaultCertRefresh, DefaultLeaseDuration,
      DefaultRenewDeadline, DefaultRetryPeriod, hour, second]

end AutoCert
